import Mathlib

/-!
Verification of the check-in automation repository: a shallow embedding of
the selector-fallback resolvers (`scripts/zohoCheckin.js`), the Wi-Fi gate
(`isOnOfficeWiFi`) and the polling scheduler (`shouldRunCheckin`,
`shouldRunCheckout`, the `setInterval` tick body), together with theorems
about the specified properties.

The page-automation engine (Playwright) is external: a page is modelled as a
finite table from selector strings to lookup results, and engine calls
(`page.$`, `isVisible`, `fill`, `click`, `screenshot`, navigation) are
modelled by their documented interface semantics.  Machine-level details
(actual DOM, real clocks, the operating-system Wi-Fi queries) stay outside
the model; the functions below are translated statement by statement from
the JavaScript source.
-/

namespace Checkin

/-! ## String utilities (JavaScript semantics) -/

/-- JavaScript `hay.includes(needle)`: substring containment. -/
def strContains (hay needle : String) : Bool :=
  hay.data.tails.any (fun t => needle.data.isPrefixOf t)

/-- JavaScript `s.toLowerCase()` (character-wise; every string the script
lowercases is plain text). -/
def jsToLower (s : String) : String :=
  String.mk (s.data.map Char.toLower)

/-- Whitespace as JavaScript `trim` removes it (the forms that can occur in
an environment value). -/
def isSpaceChar (c : Char) : Bool :=
  c = ' ' ∨ c = '\t' ∨ c = '\n' ∨ c = '\r'

def dropLeadingSpace : List Char → List Char
  | [] => []
  | c :: cs => if isSpaceChar c then dropLeadingSpace cs else c :: cs

/-- JavaScript `s.trim()`: strip whitespace from both ends. -/
def jsTrim (s : String) : String :=
  String.mk (dropLeadingSpace (dropLeadingSpace s.data.reverse).reverse)

def splitCommaChars : List Char → List (List Char)
  | [] => [[]]
  | c :: cs =>
    if c = ',' then [] :: splitCommaChars cs
    else
      match splitCommaChars cs with
      | [] => [[c]]
      | g :: gs => (c :: g) :: gs

/-- JavaScript `s.split(",")`. -/
def jsSplitComma (s : String) : List String :=
  (splitCommaChars s.data).map String.mk

/-- JavaScript `s.split(",").map(x => x.trim()).filter(x => x.length > 0)`,
used for all comma-separated selector and SSID lists. -/
def splitTrimFilter (s : String) : List String :=
  ((jsSplitComma s).map jsTrim).filter (fun x => x.length > 0)

/-- JavaScript falsiness of an optional string environment value:
`undefined` and the empty string are falsy. -/
def falsyStr : Option String → Bool
  | none => true
  | some s => s.isEmpty

/-- JavaScript `process.env.X || defaultValue`. -/
def envOr (v : Option String) (d : String) : String :=
  match v with
  | some s => if s.isEmpty then d else s
  | none => d

/-! ## Page model

A page element carries the two attributes the script reads: its text content
(`textContent` resolves to a string for an element node) and its
`aria-label`, for which `getAttribute` RESOLVES to `null` when the attribute
is absent — the `.catch` at zohoCheckin.js line 389 converts only
rejections, not a resolved `null`, so `ariaLabel` is an `Option String` with
`none` for a missing attribute.  A selector lookup (`page.$`) either finds
no element or finds one with a visibility flag (`isVisible`). -/

structure Elem where
  text : String
  ariaLabel : Option String
deriving Repr, DecidableEq

inductive Lookup where
  | absent
  | present (visible : Bool) (e : Elem)
deriving Repr, DecidableEq

/-- A page: a finite association of selector strings to lookup results.
Selectors not listed are absent.  The page is static during one scan. -/
abbrev Page := List (String × Lookup)

/-- Models `page.$(selector)` followed by the element checks. -/
def Page.query (p : Page) (s : String) : Lookup :=
  (List.lookup s p).getD Lookup.absent

/-- Whether a selector currently resolves to a visible element. -/
def visibleAt (p : Page) (s : String) : Bool :=
  match p.query s with
  | Lookup.present true _ => true
  | _ => false

/-- Models `await handle.fill(value)`: Playwright auto-waits for
actionability (visibility) and throws a timeout error when the element stays
invisible; `some e` means the fill succeeded on `e`, `none` that it threw. -/
def tryFill : Lookup → Option Elem
  | Lookup.present true e => some e
  | _ => none

/-! ## Selector lists (zohoCheckin.js)

The default ordered selector lists, verbatim from the source. -/

/-- Default check-in/check-out selectors (zohoCheckin.js lines 363-371). -/
def actionSelectorDefaults : List String :=
  ["#ZPAtt_check_in_out",
   "button#ZPAtt_check_in_out",
   "button[aria-label*=\"Check\"]",
   "button:has-text(\"Check-in\")",
   "button:has-text(\"Check-out\")",
   "button:has-text(\"Check In\")",
   "[onclick*=\"TAMSUtil.Attendance.punch\"]"]

/-- Default Google-login selectors (zohoCheckin.js lines 505-522). -/
def googleButtonSelectorDefaults : List String :=
  ["span[aria-label=\"Sign in with Google\"]",
   "span.google_icon",
   "span[value=\"google\"]",
   ".google_fed",
   "span.fed_div.google_icon",
   "button:has-text(\"Google\")",
   "button:has-text(\"Sign in with Google\")",
   "a:has-text(\"Google\")",
   "a:has-text(\"Sign in with Google\")",
   "[data-provider=\"google\"]",
   ".google-signin",
   "button[aria-label*=\"Google\"]",
   "a[aria-label*=\"Google\"]",
   "span[aria-label*=\"Google\"]"]

/-- Email-field selectors (zohoCheckin.js lines 594-601). -/
def emailSelectors : List String :=
  ["input[type=\"email\"]",
   "input[name=\"login_id\"]",
   "input[id*=\"email\"]",
   "input[id*=\"login\"]",
   "#login_id",
   "#email"]

/-- The four comma-joined selectors of the `waitForSelector` call at
zohoCheckin.js lines 589-591 (Playwright waits until one is visible). -/
def emailWaitSelectors : List String :=
  ["input[type=\"email\"]",
   "input[name=\"login_id\"]",
   "input[id*=\"email\"]",
   "input[id*=\"login\"]"]

/-- Next/continue-button selectors (zohoCheckin.js lines 623-629). -/
def nextButtonSelectors : List String :=
  ["button:has-text(\"Next\")",
   "button:has-text(\"Continue\")",
   "button[type=\"submit\"]",
   "#nextbtn",
   ".zgh-button"]

/-- Password-field selectors (zohoCheckin.js lines 649-654). -/
def passwordSelectors : List String :=
  ["input[type=\"password\"]",
   "input[name=\"password\"]",
   "#password",
   "input[id*=\"password\"]"]

/-- Submit-button selectors (zohoCheckin.js lines 677-683). -/
def submitSelectors : List String :=
  ["button[type=\"submit\"]",
   "button:has-text(\"Sign in\")",
   "button:has-text(\"Login\")",
   "#nextbtn",
   "input[type=\"submit\"]"]

/-! ## Selector scans

Each loop in the source that walks an ordered selector list is embedded as
its own recursion.  Waits (`waitForTimeout`, `waitForSelector ... catch`)
do not change the static page and are dropped. -/

/-- The pure first-visible-match function named by the specification
(section 9): the first selector that resolves to a visible element wins. -/
def firstVisibleMatch (page : Page) : List String → Option (String × Elem)
  | [] => none
  | s :: rest =>
    match page.query s with
    | Lookup.present true e => some (s, e)
    | _ => firstVisibleMatch page rest

/-- The Google-login-button loop (zohoCheckin.js lines 527-559): on a
present element it checks `isVisible` and clicks on the first visible one;
invisible or absent candidates fall through to the next selector. -/
def googleScan (page : Page) : List String → Option (String × Elem)
  | [] => none
  | s :: rest =>
    match page.query s with
    | Lookup.absent => googleScan page rest
    | Lookup.present vis e =>
      if vis then some (s, e) else googleScan page rest

/-- The email-field loop (zohoCheckin.js lines 604-616): `page.$` has no
explicit visibility check, but `handle.fill` itself waits for actionability
(visibility) and throws on a permanently invisible element; the `catch`
moves on to the next selector, so the loop fills the first visible field. -/
def emailScan (page : Page) : List String → Option (String × Elem)
  | [] => none
  | s :: rest =>
    match page.query s with
    | Lookup.absent => emailScan page rest
    | lk =>
      match tryFill lk with
      | some e => some (s, e)
      | none => emailScan page rest

/-- The next/continue-button loop (zohoCheckin.js lines 631-643):
`if (nextButton && await nextButton.isVisible())`. -/
def nextScan (page : Page) : List String → Option (String × Elem)
  | [] => none
  | s :: rest =>
    match page.query s with
    | Lookup.present true e => some (s, e)
    | _ => nextScan page rest

/-- The password-field loop (zohoCheckin.js lines 657-669):
`if (passwordField && await passwordField.isVisible())`. -/
def passwordScan (page : Page) : List String → Option (String × Elem)
  | [] => none
  | s :: rest =>
    match page.query s with
    | Lookup.present true e => some (s, e)
    | _ => passwordScan page rest

/-- The submit-button loop (zohoCheckin.js lines 686-698):
`if (submitButton && await submitButton.isVisible())`. -/
def submitScan (page : Page) : List String → Option (String × Elem)
  | [] => none
  | s :: rest =>
    match page.query s with
    | Lookup.present true e => some (s, e)
    | _ => submitScan page rest

/-! ## Action classification -/

inductive ActionKind where
  | checkin
  | checkout
deriving Repr, DecidableEq

/-- Classification of the matched action button (zohoCheckin.js lines
392-399), with JavaScript evaluation order: line 392 first lowercases the
button text; if it lacks "check-in" the right disjunct evaluates
`ariaLabel.toLowerCase()`, which throws a TypeError when `getAttribute`
resolved `null` — `none` here models that throw.  With a string label the
checks are: "check-in" in text or label, then "check-out" in text or label,
then a fallback that looks for "out" in the button text only, defaulting to
check-in. -/
def classifyAction (buttonText : String) (ariaLabel : Option String) : Option ActionKind :=
  let t := jsToLower buttonText
  if strContains t "check-in" then some ActionKind.checkin
  else
    match ariaLabel with
    | none => none
    | some lbl =>
      let a := jsToLower lbl
      if strContains a "check-in" then some ActionKind.checkin
      else if strContains t "check-out" || strContains a "check-out" then some ActionKind.checkout
      else if strContains t "out" then some ActionKind.checkout
      else some ActionKind.checkin

/-- The check-in/check-out button loop (zohoCheckin.js lines 378-427):
wait for the selector (ignoring timeouts), then `page.$`, then `isVisible`;
on a visible element the loop reads text and aria-label and classifies the
action before clicking, so a TypeError thrown by the classification (null
aria-label, text without "check-in") is caught at line 423 and the loop
moves on to the next selector; otherwise the element is acted on and the
loop breaks. -/
def actionScan (page : Page) : List String → Option (String × Elem × ActionKind)
  | [] => none
  | s :: rest =>
    match page.query s with
    | Lookup.absent => actionScan page rest
    | Lookup.present vis e =>
      if vis then
        match classifyAction e.text e.ariaLabel with
        | some k => some (s, e, k)
        | none => actionScan page rest
      else actionScan page rest

/-- Modelled from the spec words for the classification rule: substring
match on "in"/"out" in the text or the accessible label, defaulting to
check-in when ambiguous (both or neither present). -/
def classifyActionSpec (buttonText ariaLabel : String) : ActionKind :=
  let t := jsToLower buttonText
  let a := jsToLower ariaLabel
  let hasIn := strContains t "in" || strContains a "in"
  let hasOut := strContains t "out" || strContains a "out"
  if hasOut && !hasIn then ActionKind.checkout else ActionKind.checkin

/-! ## Wi-Fi gate (part_001)

`getCurrentWiFiSSID` shells out to a chain of macOS tools and returns either
a detected SSID string or `null`; its outcome is modelled as an
`Option String` input.  The expected-SSID argument of `isOnOfficeWiFi` can
be `null`/`undefined`, a string, an array of strings, or a value of any
other type. -/

inductive SSIDInput where
  | absent
  | str (s : String)
  | arr (l : List String)
  | other
deriving Repr, DecidableEq

/-- `isOnOfficeWiFi` (part_001 lines 262-308), with the detection outcome of
`getCurrentWiFiSSID` passed in as `detected`.  Falsy input (null, undefined,
empty string) is rejected first; arrays are used as given; strings are
comma-split, trimmed and filtered; anything else is an invalid format; an
empty resulting list, or an undetected network, yields `false`. -/
def isOnOfficeWiFi (expectedSSIDs : SSIDInput) (detected : Option String) : Bool :=
  match expectedSSIDs with
  | SSIDInput.absent => false
  | SSIDInput.str s =>
    if s.isEmpty then false
    else
      let officeSSIDs := splitTrimFilter s
      if officeSSIDs.length = 0 then false
      else
        match detected with
        | none => false
        | some currentSSID => officeSSIDs.contains currentSSID
  | SSIDInput.arr l =>
    let officeSSIDs := l
    if officeSSIDs.length = 0 then false
    else
      match detected with
      | none => false
      | some currentSSID => officeSSIDs.contains currentSSID
  | SSIDInput.other => false

/-- Modelled from the spec words: true iff the detected network name exactly
equals one entry of the comma-split, trimmed expected set (the normalisation
applied uniformly to string and array inputs). -/
def isOnExpectedNetworkSpec (expectedSSIDs : SSIDInput) (detected : Option String) : Bool :=
  let expectedSet : List String :=
    match expectedSSIDs with
    | SSIDInput.str s => splitTrimFilter s
    | SSIDInput.arr l => (l.map splitTrimFilter).flatten
    | _ => []
  match detected with
  | none => false
  | some currentSSID => expectedSet.contains currentSSID

/-! ## Polling scheduler (part_002)

The monitor keeps two module-level markers (`lastCheckinDate`,
`lastCheckoutDate`, JavaScript `null` or a `toDateString()` string) and a
`setInterval` body that evaluates both targets and then applies the midnight
reset.  A tick observes the local wall clock as a `Time`. -/

structure Time where
  dateStr : String
  dayOfWeek : Nat
  hour : Nat
  minute : Nat
deriving Repr, DecidableEq

structure SchedState where
  lastCheckinDate : Option String
  lastCheckoutDate : Option String
deriving Repr, DecidableEq

structure SchedTime where
  hour : Nat
  minute : Nat
deriving Repr, DecidableEq

/-- part_002 line 24. -/
def CHECKIN_TIME : SchedTime := ⟨6, 0⟩

/-- part_002 line 25. -/
def CHECKOUT_TIME : SchedTime := ⟨13, 45⟩

/-- part_002 line 28 (1=Monday ... 5=Friday). -/
def WEEKDAYS : List Nat := [1, 2, 3, 4, 5]

/-- `shouldRunCheckin` (part_002 lines 37-59): returns the decision and the
updated marker (the source mutates the module-level `lastCheckinDate`). -/
def shouldRunCheckin (st : SchedState) (now : Time) : Bool × SchedState :=
  if !(WEEKDAYS.contains now.dayOfWeek) then (false, st)
  else if now.hour = CHECKIN_TIME.hour ∧ now.minute = CHECKIN_TIME.minute then
    if st.lastCheckinDate ≠ some now.dateStr then
      (true, { st with lastCheckinDate := some now.dateStr })
    else (false, st)
  else (false, st)

/-- `shouldRunCheckout` (part_002 lines 64-86). -/
def shouldRunCheckout (st : SchedState) (now : Time) : Bool × SchedState :=
  if !(WEEKDAYS.contains now.dayOfWeek) then (false, st)
  else if now.hour = CHECKOUT_TIME.hour ∧ now.minute = CHECKOUT_TIME.minute then
    if st.lastCheckoutDate ≠ some now.dateStr then
      (true, { st with lastCheckoutDate := some now.dateStr })
    else (false, st)
  else (false, st)

/-- Outcome of one spawned `zohoCheckin.js` run, as the monitor observes it
through the `error` and `exit` events of the child process. -/
inductive RunOutcome where
  | spawnError (msg : String)
  | exited (code : Int)
deriving Repr, DecidableEq

/-- `runCheckinScript` (part_002 lines 91-119): spawning the flow only
produces log lines from the child outcome; nothing else happens in the
monitor process. -/
def runCheckinScript (outcome : RunOutcome) : List String :=
  "Triggering check-in/check-out script..." ::
    (match outcome with
     | RunOutcome.spawnError msg => ["Error running script: " ++ msg]
     | RunOutcome.exited code =>
       if code = 0 then ["Check-in/check-out script completed successfully"]
       else ["Check-in/check-out script exited with code " ++ toString code])

structure TickResult where
  state : SchedState
  checkinSpawned : Bool
  checkoutSpawned : Bool
  logs : List String
deriving Repr, DecidableEq

/-- One iteration of the `setInterval` body (part_002 lines 132-151):
evaluate the check-in target (spawning on success), then the check-out
target, then reset both markers when the clock reads local midnight.  The
outcomes of the spawned runs are inputs from the environment. -/
def tick (st : SchedState) (now : Time)
    (checkinOutcome checkoutOutcome : RunOutcome) : TickResult :=
  let (runIn, st1) := shouldRunCheckin st now
  let inLogs :=
    if runIn then
      "Check-in time detected - Running check-in..." :: runCheckinScript checkinOutcome
    else []
  let (runOut, st2) := shouldRunCheckout st1 now
  let outLogs :=
    if runOut then
      "Check-out time detected - Running check-out..." :: runCheckinScript checkoutOutcome
    else []
  if now.hour = 0 ∧ now.minute = 0 then
    { state := ⟨none, none⟩
      checkinSpawned := runIn
      checkoutSpawned := runOut
      logs := inLogs ++ outLogs ++ ["Daily reset - Ready for new check-in/check-out"] }
  else
    { state := st2
      checkinSpawned := runIn
      checkoutSpawned := runOut
      logs := inLogs ++ outLogs }

structure RunStats where
  final : SchedState
  checkinSpawns : Nat
  checkoutSpawns : Nat
deriving Repr, DecidableEq

/-- A sequence of ticks, each paired with the outcomes of the runs it would
spawn. -/
def runTicks (st : SchedState) :
    List (Time × RunOutcome × RunOutcome) → RunStats
  | [] => ⟨st, 0, 0⟩
  | (now, oIn, oOut) :: rest =>
    let r := tick st now oIn oOut
    let stats := runTicks r.state rest
    ⟨stats.final,
     (if r.checkinSpawned then 1 else 0) + stats.checkinSpawns,
     (if r.checkoutSpawned then 1 else 0) + stats.checkoutSpawns⟩

/-- Minutes past local midnight of a tick instant. -/
def timeOfDay (t : Time) : Nat := t.hour * 60 + t.minute

/-! ## Main flow (zohoCheckin.js, performZohoCheckin)

The configuration mirrors the environment variables read at the top of the
script; the world supplies the responses of the external browser engine
(URLs observed at each `page.url()` call, the login and action pages for the
selector scans, the saved-state file check). -/

structure Config where
  email : Option String
  password : Option String
  useGoogleLoginFlag : Bool
  headlessFlag : Bool
  headedFlag : Bool
  usePersistentContext : Bool
  zohoUrlEnv : Option String
  checkinUrlEnv : Option String
  checkinSelectorsEnv : Option String
  googleSelectorsEnv : Option String
deriving Repr, DecidableEq

/-- zohoCheckin.js line 18: `USE_GOOGLE_LOGIN === "true" || !ZOHO_PASSWORD`. -/
def useGoogleLogin (c : Config) : Bool :=
  c.useGoogleLoginFlag || falsyStr c.password

/-- zohoCheckin.js line 17 (`ZOHO_URL || default`). -/
def zohoUrl (c : Config) : String :=
  envOr c.zohoUrlEnv
    "https://accounts.zoho.com/signin?servicename=zohopeople&signupurl=https://www.zoho.com/people/signup.html"

/-- zohoCheckin.js line 339 (`ZOHO_CHECKIN_URL || default`). -/
def checkinUrl (c : Config) : String :=
  envOr c.checkinUrlEnv
    "https://people.zoho.com/iscalesolutions/zp#home/myspace/overview-actionlist"

/-- Resolution of a selector-list override (zohoCheckin.js lines 354-373 and
496-524): a truthy environment value is comma-split, trimmed and filtered,
otherwise the built-in defaults are used. -/
def selectorList (custom : Option String) (defaults : List String) : List String :=
  match custom with
  | some s => if s.isEmpty then defaults else splitTrimFilter s
  | none => defaults

/-- zohoCheckin.js line 289: login state by URL markers. -/
def isLoginUrl (u : String) : Bool :=
  strContains u "signin" || strContains u "login"

structure World where
  hasSavedState : Bool
  landingUrl : String
  postLoginUrl : String
  preActionUrl : String
  loginPage : Page
  actionPage : Page
  timestamp : String
deriving Repr, DecidableEq

/-- Observable external actions of one run, in order. -/
inductive Event where
  | browserLaunch (persistent : Bool)
  | navigate (url : String)
  | clickGoogle (selector : String)
  | waitManual
  | fillEmail (selector : String)
  | clickNext (selector : String)
  | fillPassword (selector : String)
  | clickSubmit (selector : String)
  | pressEnter
  | saveState
  | screenshot (path : String)
  | clickAction (selector : String) (kind : ActionKind)
deriving Repr, DecidableEq

/-- Termination status of the `try` body of `performZohoCheckin`. -/
inductive Outcome where
  | ok
  | threw (msg : String)
  | exited (code : Nat)
deriving Repr, DecidableEq

/-- `handleGoogleLogin` (zohoCheckin.js lines 492-580): scan the OAuth
selector list; click the first visible match; otherwise capture a
diagnostic screenshot and either throw (when `HEADED` is not "true") or
wait the 60-second manual-completion window. -/
def handleGoogleLogin (c : Config) (w : World) : List Event × Outcome :=
  match googleScan w.loginPage (selectorList c.googleSelectorsEnv googleButtonSelectorDefaults) with
  | some (s, _) => ([Event.clickGoogle s], Outcome.ok)
  | none =>
    if !c.headedFlag then
      ([Event.screenshot "logs/google-button-not-found.png"],
       Outcome.threw "Google login button not found. Please check the login page structure or set GOOGLE_LOGIN_SELECTORS in .env")
    else
      ([Event.screenshot "logs/google-button-not-found.png", Event.waitManual],
       Outcome.ok)

/-- `handlePasswordLogin` (zohoCheckin.js lines 585-705): wait for an email
field (Playwright waits for visibility of one of the four joined selectors,
throwing on timeout), fill email, optionally click next, fill password,
submit or press Enter. -/
def handlePasswordLogin (_c : Config) (w : World) : List Event × Outcome :=
  if !(emailWaitSelectors.any (fun s => visibleAt w.loginPage s)) then
    ([], Outcome.threw "TimeoutError: waiting for email selector")
  else
    match emailScan w.loginPage emailSelectors with
    | none => ([], Outcome.threw "Could not find email input field")
    | some (sEmail, _) =>
      let nextEvents :=
        match nextScan w.loginPage nextButtonSelectors with
        | some (sNext, _) => [Event.clickNext sNext]
        | none => []
      match passwordScan w.loginPage passwordSelectors with
      | none =>
        (Event.fillEmail sEmail :: nextEvents,
         Outcome.threw "Could not find password input field")
      | some (sPass, _) =>
        let submitEvents :=
          match submitScan w.loginPage submitSelectors with
          | some (sSub, _) => [Event.clickSubmit sSub]
          | none => [Event.pressEnter]
        (Event.fillEmail sEmail :: nextEvents ++ Event.fillPassword sPass :: submitEvents,
         Outcome.ok)

/-- Steps 5 of the main function (zohoCheckin.js lines 285-336): check the
landing URL, run the configured login handler when a login marker is
present, re-check the URL, and persist the session when not using a
persistent context. -/
def loginPhase (c : Config) (w : World) : List Event × Outcome :=
  if !(isLoginUrl w.landingUrl) then ([], Outcome.ok)
  else
    let (evs1, o1) := if useGoogleLogin c then handleGoogleLogin c w else handlePasswordLogin c w
    match o1 with
    | Outcome.ok =>
      let (evs2, o2) :=
        if isLoginUrl w.postLoginUrl then
          if useGoogleLogin c && !c.headlessFlag then
            ([Event.screenshot "logs/login-failed.png", Event.waitManual], Outcome.ok)
          else
            ([Event.screenshot "logs/login-failed.png"],
             Outcome.threw "Login failed or requires additional authentication")
        else ([], Outcome.ok)
      match o2 with
      | Outcome.ok =>
        (evs1 ++ evs2 ++ (if c.usePersistentContext then [] else [Event.saveState]),
         Outcome.ok)
      | x => (evs1 ++ evs2, x)
    | x => (evs1, x)

/-- Steps 6 and 7 (zohoCheckin.js lines 338-435): navigate to the action
page unless already there, scan the action selector list, classify and
click the first visible match on which classification does not throw,
otherwise capture the `checkin-not-found` diagnostic screenshot; the
failure is recorded without throwing. -/
def actionPhase (c : Config) (w : World) : List Event × Bool :=
  let navEvents :=
    if !(strContains w.preActionUrl "people.zoho.com" && strContains w.preActionUrl "myspace") then
      [Event.navigate (checkinUrl c)]
    else []
  match actionScan w.actionPage (selectorList c.checkinSelectorsEnv actionSelectorDefaults) with
  | some (s, _, k) =>
    (navEvents ++ [Event.clickAction s k], true)
  | none =>
    (navEvents ++ [Event.screenshot "logs/checkin-not-found.png"], false)

/-- Path of the final verification screenshot (zohoCheckin.js lines
438-440). -/
def finalShotPath (w : World) : String :=
  "logs/zoho-checkin-" ++ w.timestamp ++ ".png"

/-- The `try` body of `performZohoCheckin` (zohoCheckin.js lines 42-442):
validate the email (exit 1 before any browser action when falsy), the
unreachable no-password exit, browser launch, navigation to the login URL,
the login phase, the action phase, and the final screenshot. -/
def tryBody (c : Config) (w : World) : List Event × Outcome :=
  if falsyStr c.email then ([], Outcome.exited 1)
  else if !w.hasSavedState && !useGoogleLogin c && falsyStr c.password then
    ([], Outcome.exited 1)
  else
    let startEvents := [Event.browserLaunch c.usePersistentContext, Event.navigate (zohoUrl c)]
    let (loginEvents, o) := loginPhase c w
    match o with
    | Outcome.ok =>
      let (actionEvents, _) := actionPhase c w
      (startEvents ++ loginEvents ++ actionEvents ++ [Event.screenshot (finalShotPath w)],
       Outcome.ok)
    | x => (startEvents ++ loginEvents, x)

/-- The whole run: the `catch` of `performZohoCheckin` exits 1 on a thrown
error (its error-screenshot attempt only logs: `browser` is null under a
persistent context, and `browser.pages` is not a function otherwise), a
`process.exit` inside the `try` ends the process directly, and normal
completion reaches the `process.exit(0)` of the module entry point. -/
def performZohoCheckin (c : Config) (w : World) : List Event × Nat :=
  let (events, o) := tryBody c w
  match o with
  | Outcome.ok => (events, 0)
  | Outcome.threw _ => (events, 1)
  | Outcome.exited code => (events, code)

/-- Events that only the Login Resolver produces. -/
def isLoginEvent : Event → Bool
  | Event.clickGoogle _ => true
  | Event.waitManual => true
  | Event.fillEmail _ => true
  | Event.clickNext _ => true
  | Event.fillPassword _ => true
  | Event.clickSubmit _ => true
  | Event.pressEnter => true
  | Event.saveState => true
  | _ => false

/-! ## Helper lemmas about the selector scans -/

theorem googleScan_eq_fvm (page : Page) (sels : List String) :
    googleScan page sels = firstVisibleMatch page sels := by
  induction sels with
  | nil => rfl
  | cons a rest ih =>
    cases hq : page.query a with
    | absent => simp [googleScan, firstVisibleMatch, hq, ih]
    | present vis e => cases vis <;> simp [googleScan, firstVisibleMatch, hq, ih]

theorem emailScan_eq_fvm (page : Page) (sels : List String) :
    emailScan page sels = firstVisibleMatch page sels := by
  induction sels with
  | nil => rfl
  | cons a rest ih =>
    cases hq : page.query a with
    | absent => simp [emailScan, firstVisibleMatch, hq, ih]
    | present vis e =>
      cases vis <;> simp [emailScan, firstVisibleMatch, tryFill, hq, ih]

theorem nextScan_eq_fvm (page : Page) (sels : List String) :
    nextScan page sels = firstVisibleMatch page sels := by
  induction sels with
  | nil => rfl
  | cons a rest ih =>
    cases hq : page.query a with
    | absent => simp [nextScan, firstVisibleMatch, hq, ih]
    | present vis e => cases vis <;> simp [nextScan, firstVisibleMatch, hq, ih]

theorem passwordScan_eq_fvm (page : Page) (sels : List String) :
    passwordScan page sels = firstVisibleMatch page sels := by
  induction sels with
  | nil => rfl
  | cons a rest ih =>
    cases hq : page.query a with
    | absent => simp [passwordScan, firstVisibleMatch, hq, ih]
    | present vis e => cases vis <;> simp [passwordScan, firstVisibleMatch, hq, ih]

theorem submitScan_eq_fvm (page : Page) (sels : List String) :
    submitScan page sels = firstVisibleMatch page sels := by
  induction sels with
  | nil => rfl
  | cons a rest ih =>
    cases hq : page.query a with
    | absent => simp [submitScan, firstVisibleMatch, hq, ih]
    | present vis e => cases vis <;> simp [submitScan, firstVisibleMatch, hq, ih]

theorem visibleAt_eq_true_iff (page : Page) (s : String) :
    visibleAt page s = true ↔ ∃ e, page.query s = Lookup.present true e := by
  unfold visibleAt
  cases hq : page.query s with
  | absent => simp
  | present vis e => cases vis <;> simp

theorem fvm_eq_some_iff (page : Page) (sels : List String) (s : String) (e : Elem) :
    firstVisibleMatch page sels = some (s, e) ↔
      ∃ pre post, sels = pre ++ s :: post ∧ page.query s = Lookup.present true e ∧
        ∀ x ∈ pre, visibleAt page x = false := by
  induction sels with
  | nil =>
    constructor
    · intro h; simp [firstVisibleMatch] at h
    · rintro ⟨pre, post, hnil, -, -⟩
      exact absurd hnil.symm (by simp)
  | cons a rest ih =>
    constructor
    · intro h
      cases hq : page.query a with
      | present vis e0 =>
        cases vis with
        | true =>
          have : some (a, e0) = some (s, e) := by
            simpa [firstVisibleMatch, hq] using h
          obtain ⟨rfl, rfl⟩ : a = s ∧ e0 = e := by
            constructor <;> injection this with h2 <;> [exact congrArg Prod.fst h2;
              exact congrArg Prod.snd h2]
          exact ⟨[], rest, rfl, hq, by simp⟩
        | false =>
          have h' : firstVisibleMatch page rest = some (s, e) := by
            simpa [firstVisibleMatch, hq] using h
          obtain ⟨pre, post, hsplit, hqe, hinv⟩ := ih.mp h'
          refine ⟨a :: pre, post, by simp [hsplit], hqe, ?_⟩
          intro x hx
          rcases List.mem_cons.mp hx with rfl | hx
          · simp [visibleAt, hq]
          · exact hinv x hx
      | absent =>
        have h' : firstVisibleMatch page rest = some (s, e) := by
          simpa [firstVisibleMatch, hq] using h
        obtain ⟨pre, post, hsplit, hqe, hinv⟩ := ih.mp h'
        refine ⟨a :: pre, post, by simp [hsplit], hqe, ?_⟩
        intro x hx
        rcases List.mem_cons.mp hx with rfl | hx
        · simp [visibleAt, hq]
        · exact hinv x hx
    · rintro ⟨pre, post, hsplit, hqe, hinv⟩
      cases pre with
      | nil =>
        obtain ⟨rfl, rfl⟩ : a = s ∧ rest = post := by
          constructor <;> injection hsplit
        simp [firstVisibleMatch, hqe]
      | cons b pre' =>
        obtain ⟨rfl, hrest⟩ : a = b ∧ rest = pre' ++ s :: post := by
          constructor <;> injection hsplit
        have hainv : visibleAt page a = false := hinv a (by simp)
        have htail : firstVisibleMatch page rest = some (s, e) :=
          ih.mpr ⟨pre', post, hrest, hqe, fun x hx => hinv x (by simp [hx])⟩
        unfold visibleAt at hainv
        cases hq : page.query a with
        | absent => simpa [firstVisibleMatch, hq] using htail
        | present vis e0 =>
          cases vis with
          | true => simp [hq] at hainv
          | false => simpa [firstVisibleMatch, hq] using htail

theorem fvm_eq_none_iff (page : Page) (sels : List String) :
    firstVisibleMatch page sels = none ↔ ∀ x ∈ sels, visibleAt page x = false := by
  induction sels with
  | nil => simp [firstVisibleMatch]
  | cons a rest ih =>
    cases hq : page.query a with
    | absent => simp [firstVisibleMatch, hq, ih, visibleAt]
    | present vis e =>
      cases vis <;> simp [firstVisibleMatch, hq, ih, visibleAt]

/-- Whether the action loop would act on a selector: it must resolve to a
visible element whose classification does not throw. -/
def actionActs (page : Page) (s : String) : Bool :=
  match page.query s with
  | Lookup.present true e => (classifyAction e.text e.ariaLabel).isSome
  | _ => false

theorem actionScan_eq_some_iff (page : Page) (sels : List String) (s : String)
    (e : Elem) (k : ActionKind) :
    actionScan page sels = some (s, e, k) ↔
      ∃ pre post, sels = pre ++ s :: post ∧ page.query s = Lookup.present true e ∧
        classifyAction e.text e.ariaLabel = some k ∧
        ∀ x ∈ pre, actionActs page x = false := by
  induction sels with
  | nil =>
    constructor
    · intro h; simp [actionScan] at h
    · rintro ⟨pre, post, hnil, -, -, -⟩
      exact absurd hnil.symm (by simp)
  | cons a rest ih =>
    constructor
    · intro h
      cases hq : page.query a with
      | absent =>
        have h' : actionScan page rest = some (s, e, k) := by
          simpa [actionScan, hq] using h
        obtain ⟨pre, post, hsplit, hqe, hcl, hinv⟩ := ih.mp h'
        refine ⟨a :: pre, post, by simp [hsplit], hqe, hcl, ?_⟩
        intro x hx
        rcases List.mem_cons.mp hx with rfl | hx
        · simp [actionActs, hq]
        · exact hinv x hx
      | present vis e0 =>
        cases vis with
        | false =>
          have h' : actionScan page rest = some (s, e, k) := by
            simpa [actionScan, hq] using h
          obtain ⟨pre, post, hsplit, hqe, hcl, hinv⟩ := ih.mp h'
          refine ⟨a :: pre, post, by simp [hsplit], hqe, hcl, ?_⟩
          intro x hx
          rcases List.mem_cons.mp hx with rfl | hx
          · simp [actionActs, hq]
          · exact hinv x hx
        | true =>
          cases hc : classifyAction e0.text e0.ariaLabel with
          | none =>
            have h' : actionScan page rest = some (s, e, k) := by
              simpa [actionScan, hq, hc] using h
            obtain ⟨pre, post, hsplit, hqe, hcl, hinv⟩ := ih.mp h'
            refine ⟨a :: pre, post, by simp [hsplit], hqe, hcl, ?_⟩
            intro x hx
            rcases List.mem_cons.mp hx with rfl | hx
            · simp [actionActs, hq, hc]
            · exact hinv x hx
          | some k0 =>
            have hsome : some (a, e0, k0) = some (s, e, k) := by
              simpa [actionScan, hq, hc] using h
            have hpair := Option.some.inj hsome
            obtain ⟨rfl, rfl, rfl⟩ : a = s ∧ e0 = e ∧ k0 = k :=
              ⟨congrArg Prod.fst hpair, congrArg (fun p => p.2.1) hpair,
               congrArg (fun p => p.2.2) hpair⟩
            exact ⟨[], rest, rfl, hq, hc, by simp⟩
    · rintro ⟨pre, post, hsplit, hqe, hcl, hinv⟩
      cases pre with
      | nil =>
        obtain ⟨rfl, rfl⟩ : a = s ∧ rest = post := by
          constructor <;> injection hsplit
        simp [actionScan, hqe, hcl]
      | cons b pre' =>
        obtain ⟨rfl, hrest⟩ : a = b ∧ rest = pre' ++ s :: post := by
          constructor <;> injection hsplit
        have hainv : actionActs page a = false := hinv a (by simp)
        have htail : actionScan page rest = some (s, e, k) :=
          ih.mpr ⟨pre', post, hrest, hqe, hcl, fun x hx => hinv x (by simp [hx])⟩
        unfold actionActs at hainv
        cases hq : page.query a with
        | absent => simpa [actionScan, hq] using htail
        | present vis e0 =>
          cases vis with
          | false => simpa [actionScan, hq] using htail
          | true =>
            rw [hq] at hainv
            simp at hainv
            cases hc : classifyAction e0.text e0.ariaLabel with
            | none => simpa [actionScan, hq, hc] using htail
            | some k0 => rw [hc] at hainv; simp at hainv

theorem actionScan_eq_none_iff (page : Page) (sels : List String) :
    actionScan page sels = none ↔ ∀ x ∈ sels, actionActs page x = false := by
  induction sels with
  | nil => simp [actionScan]
  | cons a rest ih =>
    cases hq : page.query a with
    | absent => simp [actionScan, hq, ih, actionActs]
    | present vis e =>
      cases vis with
      | false => simp [actionScan, hq, ih, actionActs]
      | true =>
        cases hc : classifyAction e.text e.ariaLabel with
        | none => simp [actionScan, hq, hc, ih, actionActs]
        | some k => simp [actionScan, hq, hc, ih, actionActs]

/-! ## Helper lemmas about the scheduler -/

theorem shouldRunCheckin_true_iff (st : SchedState) (now : Time) :
    (shouldRunCheckin st now).1 = true ↔
      WEEKDAYS.contains now.dayOfWeek = true ∧ now.hour = 6 ∧ now.minute = 0 ∧
        st.lastCheckinDate ≠ some now.dateStr := by
  unfold shouldRunCheckin CHECKIN_TIME
  split_ifs <;> simp_all

theorem shouldRunCheckout_true_iff (st : SchedState) (now : Time) :
    (shouldRunCheckout st now).1 = true ↔
      WEEKDAYS.contains now.dayOfWeek = true ∧ now.hour = 13 ∧ now.minute = 45 ∧
        st.lastCheckoutDate ≠ some now.dateStr := by
  unfold shouldRunCheckout CHECKOUT_TIME
  split_ifs <;> simp_all

theorem shouldRunCheckin_marker (st : SchedState) (now : Time)
    (h : (shouldRunCheckin st now).1 = true) :
    (shouldRunCheckin st now).2.lastCheckinDate = some now.dateStr := by
  unfold shouldRunCheckin at *
  split_ifs at h ⊢ <;> simp_all

theorem shouldRunCheckout_marker (st : SchedState) (now : Time)
    (h : (shouldRunCheckout st now).1 = true) :
    (shouldRunCheckout st now).2.lastCheckoutDate = some now.dateStr := by
  unfold shouldRunCheckout at *
  split_ifs at h ⊢ <;> simp_all

theorem shouldRunCheckin_same_date (st : SchedState) (now : Time)
    (h : st.lastCheckinDate = some now.dateStr) :
    shouldRunCheckin st now = (false, st) := by
  unfold shouldRunCheckin
  split_ifs <;> simp_all

theorem shouldRunCheckout_same_date (st : SchedState) (now : Time)
    (h : st.lastCheckoutDate = some now.dateStr) :
    shouldRunCheckout st now = (false, st) := by
  unfold shouldRunCheckout
  split_ifs <;> simp_all

theorem shouldRunCheckin_keeps_checkout (st : SchedState) (now : Time) :
    (shouldRunCheckin st now).2.lastCheckoutDate = st.lastCheckoutDate := by
  unfold shouldRunCheckin
  split_ifs <;> rfl

theorem shouldRunCheckout_keeps_checkin (st : SchedState) (now : Time) :
    (shouldRunCheckout st now).2.lastCheckinDate = st.lastCheckinDate := by
  unfold shouldRunCheckout
  split_ifs <;> rfl

theorem tick_expand (st : SchedState) (now : Time) (o1 o2 : RunOutcome) :
    (tick st now o1 o2).state =
      (if now.hour = 0 ∧ now.minute = 0 then ⟨none, none⟩
       else (shouldRunCheckout (shouldRunCheckin st now).2 now).2) ∧
    (tick st now o1 o2).checkinSpawned = (shouldRunCheckin st now).1 ∧
    (tick st now o1 o2).checkoutSpawned =
      (shouldRunCheckout (shouldRunCheckin st now).2 now).1 := by
  unfold tick
  rcases h1 : shouldRunCheckin st now with ⟨runIn, st1⟩
  rcases h2 : shouldRunCheckout st1 now with ⟨runOut, st2⟩
  by_cases hm : now.hour = 0 ∧ now.minute = 0 <;> simp [h1, h2, hm]

theorem runTicks_cons (st : SchedState) (now : Time) (o1 o2 : RunOutcome)
    (rest : List (Time × RunOutcome × RunOutcome)) :
    runTicks st ((now, o1, o2) :: rest) =
      ⟨(runTicks (tick st now o1 o2).state rest).final,
       (if (tick st now o1 o2).checkinSpawned then 1 else 0) +
         (runTicks (tick st now o1 o2).state rest).checkinSpawns,
       (if (tick st now o1 o2).checkoutSpawned then 1 else 0) +
         (runTicks (tick st now o1 o2).state rest).checkoutSpawns⟩ := rfl

/-- A checked-in marker for the current date suppresses the check-in target
on every later tick of a day that never reads local midnight. -/
theorem runTicks_checkin_locked (d : String) :
    ∀ (ticks : List (Time × RunOutcome × RunOutcome)) (st : SchedState),
      st.lastCheckinDate = some d →
      (∀ x ∈ ticks, x.1.dateStr = d ∧ ¬(x.1.hour = 0 ∧ x.1.minute = 0)) →
      (runTicks st ticks).checkinSpawns = 0 := by
  intro ticks
  induction ticks with
  | nil => intro st _ _; rfl
  | cons x rest ih =>
    intro st hst hall
    obtain ⟨now, o1, o2⟩ := x
    obtain ⟨hdate, hmid⟩ := hall (now, o1, o2) (by simp)
    have hmark : st.lastCheckinDate = some now.dateStr := by rw [hst, hdate]
    have hin : shouldRunCheckin st now = (false, st) :=
      shouldRunCheckin_same_date st now hmark
    obtain ⟨hstate, hflag, -⟩ := tick_expand st now o1 o2
    have hstate' : (tick st now o1 o2).state =
        (shouldRunCheckout st now).2 := by
      rw [hstate, if_neg hmid, hin]
    have hkeep : (tick st now o1 o2).state.lastCheckinDate = some d := by
      rw [hstate', shouldRunCheckout_keeps_checkin, hst]
    have hflag' : (tick st now o1 o2).checkinSpawned = false := by
      rw [hflag, hin]
    rw [runTicks_cons, hflag']
    simpa using ih (tick st now o1 o2).state hkeep
      (fun y hy => hall y (by simp [hy]))

/-- Symmetric statement for the check-out target. -/
theorem runTicks_checkout_locked (d : String) :
    ∀ (ticks : List (Time × RunOutcome × RunOutcome)) (st : SchedState),
      st.lastCheckoutDate = some d →
      (∀ x ∈ ticks, x.1.dateStr = d ∧ ¬(x.1.hour = 0 ∧ x.1.minute = 0)) →
      (runTicks st ticks).checkoutSpawns = 0 := by
  intro ticks
  induction ticks with
  | nil => intro st _ _; rfl
  | cons x rest ih =>
    intro st hst hall
    obtain ⟨now, o1, o2⟩ := x
    obtain ⟨hdate, hmid⟩ := hall (now, o1, o2) (by simp)
    have hmark : (shouldRunCheckin st now).2.lastCheckoutDate = some now.dateStr := by
      rw [shouldRunCheckin_keeps_checkout, hst, hdate]
    have hout : shouldRunCheckout (shouldRunCheckin st now).2 now =
        (false, (shouldRunCheckin st now).2) :=
      shouldRunCheckout_same_date _ now hmark
    obtain ⟨hstate, -, hflag⟩ := tick_expand st now o1 o2
    have hkeep : (tick st now o1 o2).state.lastCheckoutDate = some d := by
      rw [hstate, if_neg hmid, hout, shouldRunCheckin_keeps_checkout, hst]
    have hflag' : (tick st now o1 o2).checkoutSpawned = false := by
      rw [hflag, hout]
    rw [runTicks_cons, hflag']
    simpa using ih (tick st now o1 o2).state hkeep
      (fun y hy => hall y (by simp [hy]))

theorem runTicks_checkin_le_one (d : String) :
    ∀ (ticks : List (Time × RunOutcome × RunOutcome)) (st : SchedState),
      (∀ x ∈ ticks, x.1.dateStr = d) →
      List.Pairwise (fun a b => timeOfDay a.1 ≤ timeOfDay b.1) ticks →
      (runTicks st ticks).checkinSpawns ≤ 1 := by
  intro ticks
  induction ticks with
  | nil => intro st _ _; exact Nat.zero_le 1
  | cons x rest ih =>
    intro st hdate hmono
    obtain ⟨now, o1, o2⟩ := x
    obtain ⟨hlater, hmono'⟩ := List.pairwise_cons.mp hmono
    rw [runTicks_cons]
    obtain ⟨hstate, hflag, -⟩ := tick_expand st now o1 o2
    cases hsp : (tick st now o1 o2).checkinSpawned with
    | false =>
      simpa using ih (tick st now o1 o2).state
        (fun y hy => hdate y (by simp [hy])) hmono'
    | true =>
      have hrun : (shouldRunCheckin st now).1 = true := by rw [← hflag, hsp]
      obtain ⟨-, hh, hm, -⟩ := (shouldRunCheckin_true_iff st now).mp hrun
      have hnotmid : ¬(now.hour = 0 ∧ now.minute = 0) := by
        rintro ⟨h0, -⟩; rw [hh] at h0; cases h0
      have hmark : (tick st now o1 o2).state.lastCheckinDate = some d := by
        rw [hstate, if_neg hnotmid, shouldRunCheckout_keeps_checkin,
          shouldRunCheckin_marker st now hrun, hdate (now, o1, o2) (by simp)]
      have hrest : (runTicks (tick st now o1 o2).state rest).checkinSpawns = 0 := by
        refine runTicks_checkin_locked d rest (tick st now o1 o2).state hmark ?_
        intro y hy
        refine ⟨hdate y (by simp [hy]), ?_⟩
        rintro ⟨h0, h1⟩
        have := hlater y hy
        rw [timeOfDay, timeOfDay, hh, hm, h0, h1] at this
        simp at this
      simp [hrest]

theorem runTicks_checkout_le_one (d : String) :
    ∀ (ticks : List (Time × RunOutcome × RunOutcome)) (st : SchedState),
      (∀ x ∈ ticks, x.1.dateStr = d) →
      List.Pairwise (fun a b => timeOfDay a.1 ≤ timeOfDay b.1) ticks →
      (runTicks st ticks).checkoutSpawns ≤ 1 := by
  intro ticks
  induction ticks with
  | nil => intro st _ _; exact Nat.zero_le 1
  | cons x rest ih =>
    intro st hdate hmono
    obtain ⟨now, o1, o2⟩ := x
    obtain ⟨hlater, hmono'⟩ := List.pairwise_cons.mp hmono
    rw [runTicks_cons]
    obtain ⟨hstate, -, hflag⟩ := tick_expand st now o1 o2
    cases hsp : (tick st now o1 o2).checkoutSpawned with
    | false =>
      simpa using ih (tick st now o1 o2).state
        (fun y hy => hdate y (by simp [hy])) hmono'
    | true =>
      have hrun : (shouldRunCheckout (shouldRunCheckin st now).2 now).1 = true := by
        rw [← hflag, hsp]
      obtain ⟨-, hh, hm, -⟩ := (shouldRunCheckout_true_iff _ now).mp hrun
      have hnotmid : ¬(now.hour = 0 ∧ now.minute = 0) := by
        rintro ⟨h0, -⟩; rw [hh] at h0; cases h0
      have hmark : (tick st now o1 o2).state.lastCheckoutDate = some d := by
        rw [hstate, if_neg hnotmid, shouldRunCheckout_marker _ now hrun,
          hdate (now, o1, o2) (by simp)]
      have hrest : (runTicks (tick st now o1 o2).state rest).checkoutSpawns = 0 := by
        refine runTicks_checkout_locked d rest (tick st now o1 o2).state hmark ?_
        intro y hy
        refine ⟨hdate y (by simp [hy]), ?_⟩
        rintro ⟨h0, h1⟩
        have := hlater y hy
        rw [timeOfDay, timeOfDay, hh, hm, h0, h1] at this
        simp at this
      simp [hrest]

/-! ## Helper lemmas about the main flow -/

/-- The secondary no-password exit (zohoCheckin.js lines 62-65) is dead
code: a falsy password already selects Google login at line 18. -/
theorem noPassword_guard_false (c : Config) (w : World) :
    (!w.hasSavedState && !useGoogleLogin c && falsyStr c.password) = false := by
  unfold useGoogleLogin
  cases h : falsyStr c.password <;> simp [h]

theorem loginPhase_skip (c : Config) (w : World)
    (hurl : isLoginUrl w.landingUrl = false) :
    loginPhase c w = ([], Outcome.ok) := by
  unfold loginPhase
  simp [hurl]

theorem tryBody_ok_expand (c : Config) (w : World)
    (hemail : falsyStr c.email = false)
    (hlogin : (loginPhase c w).2 = Outcome.ok) :
    tryBody c w =
      (Event.browserLaunch c.usePersistentContext :: Event.navigate (zohoUrl c) ::
        ((loginPhase c w).1 ++ (actionPhase c w).1 ++ [Event.screenshot (finalShotPath w)]),
       Outcome.ok) := by
  unfold tryBody
  rw [hemail, noPassword_guard_false]
  rcases hl : loginPhase c w with ⟨loginEvents, o⟩
  rw [hl] at hlogin
  simp at hlogin
  subst hlogin
  rcases ha : actionPhase c w with ⟨actionEvents, b⟩
  simp

theorem actionPhase_no_login_events (c : Config) (w : World) :
    ∀ ev ∈ (actionPhase c w).1, isLoginEvent ev = false := by
  intro ev hev
  unfold actionPhase at hev
  rcases hs : actionScan w.actionPage (selectorList c.checkinSelectorsEnv actionSelectorDefaults)
    with - | ⟨s, e, k⟩ <;> rw [hs] at hev <;> simp at hev <;>
    rcases hev with ⟨-, rfl⟩ | rfl <;> rfl

theorem splitTrimFilter_of_isEmpty (s : String) (h : s.isEmpty = true) :
    splitTrimFilter s = [] := by
  have hs : s = "" := (String.isEmpty_iff s).mp h
  subst hs
  rfl

/-! ## Claim theorems -/

/-- C1 counterexample: an action page whose first default selector resolves
to a visible "Check-out" button without an aria-label attribute.  That
button is the first candidate that exists and is visible, yet the loop
skips it — lowercasing the null aria-label throws a TypeError, caught at
zohoCheckin.js line 423 — and acts on the second selector instead, so the
element acted upon is not the first present-and-visible candidate. -/
theorem c1_counterexample_visible_button_skipped :
    firstVisibleMatch
        [("#ZPAtt_check_in_out", Lookup.present true ⟨"Check-out", none⟩),
         ("button#ZPAtt_check_in_out", Lookup.present true ⟨"Check-in", none⟩)]
        actionSelectorDefaults =
      some ("#ZPAtt_check_in_out", ⟨"Check-out", none⟩) ∧
    actionScan
        [("#ZPAtt_check_in_out", Lookup.present true ⟨"Check-out", none⟩),
         ("button#ZPAtt_check_in_out", Lookup.present true ⟨"Check-in", none⟩)]
        actionSelectorDefaults =
      some ("button#ZPAtt_check_in_out", ⟨"Check-in", none⟩, ActionKind.checkin) := by
  decide

/-- C1 amended: for every ordered selector list used by the Login Resolver
(OAuth, email, next, password, submit) the element acted upon (clicked or
filled) is the first candidate in list order that both exists on the page
and is visible, absent or present-but-invisible candidates being skipped
without aborting the scan.  The Action Resolver also scans in list order
and skips absent or invisible candidates without aborting, but in addition
it skips a present-and-visible candidate on which the in-loop
classification throws (aria-label attribute absent and text without
"check-in"): it acts on the first visible candidate whose classification
succeeds, and records a failure only when no candidate qualifies. -/
theorem c1_first_visible_element_wins (page : Page) (sels : List String)
    (s : String) (e : Elem) (k : ActionKind) :
    (googleScan page sels = firstVisibleMatch page sels ∧
     emailScan page sels = firstVisibleMatch page sels ∧
     nextScan page sels = firstVisibleMatch page sels ∧
     passwordScan page sels = firstVisibleMatch page sels ∧
     submitScan page sels = firstVisibleMatch page sels) ∧
    (firstVisibleMatch page sels = some (s, e) ↔
      ∃ pre post, sels = pre ++ s :: post ∧ page.query s = Lookup.present true e ∧
        ∀ x ∈ pre, visibleAt page x = false) ∧
    (firstVisibleMatch page sels = none ↔ ∀ x ∈ sels, visibleAt page x = false) ∧
    (actionScan page sels = some (s, e, k) ↔
      ∃ pre post, sels = pre ++ s :: post ∧ page.query s = Lookup.present true e ∧
        classifyAction e.text e.ariaLabel = some k ∧
        ∀ x ∈ pre, actionActs page x = false) ∧
    (actionScan page sels = none ↔ ∀ x ∈ sels, actionActs page x = false) :=
  ⟨⟨googleScan_eq_fvm page sels, emailScan_eq_fvm page sels, nextScan_eq_fvm page sels,
    passwordScan_eq_fvm page sels, submitScan_eq_fvm page sels⟩,
   fvm_eq_some_iff page sels s e, fvm_eq_none_iff page sels,
   actionScan_eq_some_iff page sels s e k, actionScan_eq_none_iff page sels⟩

/-- C2: within one local calendar day — all ticks carry the same date
string and their times of day are non-decreasing, as successive readings of
a real clock are — each target spawns the flow at most once, whatever the
outcomes of the spawned runs. -/
theorem c2_at_most_once_per_day (st : SchedState) (d : String)
    (ticks : List (Time × RunOutcome × RunOutcome))
    (hdate : ∀ x ∈ ticks, x.1.dateStr = d)
    (hmono : List.Pairwise (fun a b => timeOfDay a.1 ≤ timeOfDay b.1) ticks) :
    (runTicks st ticks).checkinSpawns ≤ 1 ∧ (runTicks st ticks).checkoutSpawns ≤ 1 :=
  ⟨runTicks_checkin_le_one d ticks st hdate hmono,
   runTicks_checkout_le_one d ticks st hdate hmono⟩

def c2Ticks : List (Time × RunOutcome × RunOutcome) :=
  [(⟨"Mon Oct 06 2025", 1, 6, 0⟩, RunOutcome.exited 0, RunOutcome.exited 0),
   (⟨"Mon Oct 06 2025", 1, 6, 0⟩, RunOutcome.exited 0, RunOutcome.exited 0)]

/-- Witness for C2: two consecutive ticks both matching hour 6, minute 0 on
the same date spawn the check-in exactly once. -/
theorem c2_at_most_once_per_day_witness :
    ((runTicks ⟨none, none⟩ c2Ticks).checkinSpawns ≤ 1 ∧
     (runTicks ⟨none, none⟩ c2Ticks).checkoutSpawns ≤ 1) ∧
    (runTicks ⟨none, none⟩ c2Ticks).checkinSpawns = 1 :=
  ⟨c2_at_most_once_per_day ⟨none, none⟩ "Mon Oct 06 2025" c2Ticks
      (by decide) (by decide),
   by decide⟩

/-- C3: a target whose last-run marker holds a previous (different) calendar
day fires again on a tick whose weekday, hour and minute match that target
schedule. -/
theorem c3_previous_day_marker_fires_again (st : SchedState) (tIn tOut : Time)
    (dIn dOut : String) (o1 o2 o3 o4 : RunOutcome)
    (hIn1 : st.lastCheckinDate = some dIn) (hIn2 : dIn ≠ tIn.dateStr)
    (hIn3 : WEEKDAYS.contains tIn.dayOfWeek = true)
    (hIn4 : tIn.hour = 6) (hIn5 : tIn.minute = 0)
    (hOut1 : st.lastCheckoutDate = some dOut) (hOut2 : dOut ≠ tOut.dateStr)
    (hOut3 : WEEKDAYS.contains tOut.dayOfWeek = true)
    (hOut4 : tOut.hour = 13) (hOut5 : tOut.minute = 45) :
    (tick st tIn o1 o2).checkinSpawned = true ∧
    (tick st tOut o3 o4).checkoutSpawned = true := by
  constructor
  · obtain ⟨-, hflag, -⟩ := tick_expand st tIn o1 o2
    rw [hflag]
    refine (shouldRunCheckin_true_iff st tIn).mpr ⟨hIn3, hIn4, hIn5, ?_⟩
    rw [hIn1]
    exact fun h => hIn2 (Option.some.inj h)
  · obtain ⟨-, -, hflag⟩ := tick_expand st tOut o3 o4
    rw [hflag]
    refine (shouldRunCheckout_true_iff _ tOut).mpr ⟨hOut3, hOut4, hOut5, ?_⟩
    rw [shouldRunCheckin_keeps_checkout, hOut1]
    exact fun h => hOut2 (Option.some.inj h)

/-- Witness for C3: markers set on Sunday, matching ticks on Monday. -/
theorem c3_previous_day_marker_fires_again_witness :
    (tick ⟨some "Sun Oct 05 2025", some "Sun Oct 05 2025"⟩ ⟨"Mon Oct 06 2025", 1, 6, 0⟩
        (RunOutcome.exited 0) (RunOutcome.exited 0)).checkinSpawned = true ∧
    (tick ⟨some "Sun Oct 05 2025", some "Sun Oct 05 2025"⟩ ⟨"Mon Oct 06 2025", 1, 13, 45⟩
        (RunOutcome.exited 0) (RunOutcome.exited 0)).checkoutSpawned = true :=
  c3_previous_day_marker_fires_again
    ⟨some "Sun Oct 05 2025", some "Sun Oct 05 2025"⟩
    ⟨"Mon Oct 06 2025", 1, 6, 0⟩ ⟨"Mon Oct 06 2025", 1, 13, 45⟩
    "Sun Oct 05 2025" "Sun Oct 05 2025"
    (RunOutcome.exited 0) (RunOutcome.exited 0) (RunOutcome.exited 0) (RunOutcome.exited 0)
    rfl (by decide) (by decide) rfl rfl
    rfl (by decide) (by decide) rfl rfl

/-- C10: when a tick spawns a target — check-in or check-out — that target
last-run marker is already set when the spawn decision is returned (before
the child process is started), the whole tick result apart from the log
lines is the same for every child outcome — a spawn error or a non-zero
exit code is only logged and cannot crash the loop, which is a total
function — the marker survives the tick, and a later tick of the same
calendar day cannot spawn that target again. -/
theorem c10_marker_recorded_before_spawn (stIn stOut : SchedState)
    (tIn uIn tOut uOut : Time)
    (oIn1 oIn2 oAlt1 oAlt2 uA uB oOut1 oOut2 oAlt3 oAlt4 vA vB : RunOutcome)
    (hspawnIn : (tick stIn tIn oIn1 oIn2).checkinSpawned = true)
    (hsameIn : uIn.dateStr = tIn.dateStr)
    (hspawnOut : (tick stOut tOut oOut1 oOut2).checkoutSpawned = true)
    (hsameOut : uOut.dateStr = tOut.dateStr) :
    ((shouldRunCheckin stIn tIn).2.lastCheckinDate = some tIn.dateStr ∧
     (tick stIn tIn oIn1 oIn2).state = (tick stIn tIn oAlt1 oAlt2).state ∧
     (tick stIn tIn oIn1 oIn2).checkinSpawned = (tick stIn tIn oAlt1 oAlt2).checkinSpawned ∧
     (tick stIn tIn oIn1 oIn2).checkoutSpawned = (tick stIn tIn oAlt1 oAlt2).checkoutSpawned ∧
     (tick stIn tIn oIn1 oIn2).state.lastCheckinDate = some tIn.dateStr ∧
     (tick (tick stIn tIn oIn1 oIn2).state uIn uA uB).checkinSpawned = false) ∧
    ((shouldRunCheckout (shouldRunCheckin stOut tOut).2 tOut).2.lastCheckoutDate =
        some tOut.dateStr ∧
     (tick stOut tOut oOut1 oOut2).state = (tick stOut tOut oAlt3 oAlt4).state ∧
     (tick stOut tOut oOut1 oOut2).checkinSpawned = (tick stOut tOut oAlt3 oAlt4).checkinSpawned ∧
     (tick stOut tOut oOut1 oOut2).checkoutSpawned =
        (tick stOut tOut oAlt3 oAlt4).checkoutSpawned ∧
     (tick stOut tOut oOut1 oOut2).state.lastCheckoutDate = some tOut.dateStr ∧
     (tick (tick stOut tOut oOut1 oOut2).state uOut vA vB).checkoutSpawned = false) := by
  constructor
  · obtain ⟨hstate, hflag, hflagOut⟩ := tick_expand stIn tIn oIn1 oIn2
    obtain ⟨hstate2, hflag2, hflagOut2⟩ := tick_expand stIn tIn oAlt1 oAlt2
    have hrun : (shouldRunCheckin stIn tIn).1 = true := by rw [← hflag, hspawnIn]
    obtain ⟨-, hh, -, -⟩ := (shouldRunCheckin_true_iff stIn tIn).mp hrun
    have hnotmid : ¬(tIn.hour = 0 ∧ tIn.minute = 0) := by
      rintro ⟨h0, -⟩; rw [hh] at h0; cases h0
    have hmark : (tick stIn tIn oIn1 oIn2).state.lastCheckinDate = some tIn.dateStr := by
      rw [hstate, if_neg hnotmid, shouldRunCheckout_keeps_checkin,
        shouldRunCheckin_marker stIn tIn hrun]
    refine ⟨shouldRunCheckin_marker stIn tIn hrun, ?_, ?_, ?_, hmark, ?_⟩
    · rw [hstate, hstate2]
    · rw [hflag, hflag2]
    · rw [hflagOut, hflagOut2]
    · obtain ⟨-, huflag, -⟩ := tick_expand (tick stIn tIn oIn1 oIn2).state uIn uA uB
      rw [huflag]
      cases hb : (shouldRunCheckin (tick stIn tIn oIn1 oIn2).state uIn).1 with
      | false => rfl
      | true =>
        obtain ⟨-, -, -, hne⟩ := (shouldRunCheckin_true_iff _ uIn).mp hb
        exact absurd (by rw [hmark, hsameIn]) hne
  · obtain ⟨hstate, hflagIn, hflag⟩ := tick_expand stOut tOut oOut1 oOut2
    obtain ⟨hstate2, hflagIn2, hflag2⟩ := tick_expand stOut tOut oAlt3 oAlt4
    have hrun : (shouldRunCheckout (shouldRunCheckin stOut tOut).2 tOut).1 = true := by
      rw [← hflag, hspawnOut]
    obtain ⟨-, hh, -, -⟩ := (shouldRunCheckout_true_iff _ tOut).mp hrun
    have hnotmid : ¬(tOut.hour = 0 ∧ tOut.minute = 0) := by
      rintro ⟨h0, -⟩; rw [hh] at h0; cases h0
    have hmark : (tick stOut tOut oOut1 oOut2).state.lastCheckoutDate = some tOut.dateStr := by
      rw [hstate, if_neg hnotmid, shouldRunCheckout_marker _ tOut hrun]
    refine ⟨shouldRunCheckout_marker _ tOut hrun, ?_, ?_, ?_, hmark, ?_⟩
    · rw [hstate, hstate2]
    · rw [hflagIn, hflagIn2]
    · rw [hflag, hflag2]
    · obtain ⟨-, -, hvflag⟩ := tick_expand (tick stOut tOut oOut1 oOut2).state uOut vA vB
      rw [hvflag]
      cases hb : (shouldRunCheckout
          (shouldRunCheckin (tick stOut tOut oOut1 oOut2).state uOut).2 uOut).1 with
      | false => rfl
      | true =>
        obtain ⟨-, -, -, hne⟩ := (shouldRunCheckout_true_iff _ uOut).mp hb
        refine absurd ?_ hne
        rw [shouldRunCheckin_keeps_checkout, hmark, hsameOut]

def c10State : SchedState := ⟨none, none⟩

def c10CheckinTick : Time := ⟨"Mon Oct 06 2025", 1, 6, 0⟩

def c10CheckinNext : Time := ⟨"Mon Oct 06 2025", 1, 6, 1⟩

def c10CheckoutTick : Time := ⟨"Mon Oct 06 2025", 1, 13, 45⟩

def c10CheckoutNext : Time := ⟨"Mon Oct 06 2025", 1, 13, 46⟩

def c10Err : RunOutcome := RunOutcome.spawnError "spawn ENOENT"

def c10Fail : RunOutcome := RunOutcome.exited 1

def c10Ok : RunOutcome := RunOutcome.exited 0

/-- Witness for C10: a spawning Monday 6:00 check-in tick and a spawning
Monday 13:45 check-out tick, each with a crashing child compared against a
child with a non-zero exit code, followed by a later tick of the same day. -/
theorem c10_marker_recorded_before_spawn_witness :
    ((shouldRunCheckin c10State c10CheckinTick).2.lastCheckinDate =
        some c10CheckinTick.dateStr ∧
     (tick c10State c10CheckinTick c10Err c10Ok).state =
        (tick c10State c10CheckinTick c10Fail c10Ok).state ∧
     (tick c10State c10CheckinTick c10Err c10Ok).checkinSpawned =
        (tick c10State c10CheckinTick c10Fail c10Ok).checkinSpawned ∧
     (tick c10State c10CheckinTick c10Err c10Ok).checkoutSpawned =
        (tick c10State c10CheckinTick c10Fail c10Ok).checkoutSpawned ∧
     (tick c10State c10CheckinTick c10Err c10Ok).state.lastCheckinDate =
        some c10CheckinTick.dateStr ∧
     (tick (tick c10State c10CheckinTick c10Err c10Ok).state c10CheckinNext
        c10Ok c10Ok).checkinSpawned = false) ∧
    ((shouldRunCheckout (shouldRunCheckin c10State c10CheckoutTick).2
        c10CheckoutTick).2.lastCheckoutDate = some c10CheckoutTick.dateStr ∧
     (tick c10State c10CheckoutTick c10Ok c10Err).state =
        (tick c10State c10CheckoutTick c10Ok c10Fail).state ∧
     (tick c10State c10CheckoutTick c10Ok c10Err).checkinSpawned =
        (tick c10State c10CheckoutTick c10Ok c10Fail).checkinSpawned ∧
     (tick c10State c10CheckoutTick c10Ok c10Err).checkoutSpawned =
        (tick c10State c10CheckoutTick c10Ok c10Fail).checkoutSpawned ∧
     (tick c10State c10CheckoutTick c10Ok c10Err).state.lastCheckoutDate =
        some c10CheckoutTick.dateStr ∧
     (tick (tick c10State c10CheckoutTick c10Ok c10Err).state c10CheckoutNext
        c10Ok c10Ok).checkoutSpawned = false) :=
  c10_marker_recorded_before_spawn c10State c10State
    c10CheckinTick c10CheckinNext c10CheckoutTick c10CheckoutNext
    c10Err c10Ok c10Fail c10Ok c10Ok c10Ok c10Ok c10Err c10Ok c10Fail c10Ok c10Ok
    (by decide) rfl (by decide) rfl

/-- C5 counterexample: for an array input holding an untrimmed entry the
code compares the detected name against the entries verbatim and misses,
while the comma-split trimmed expected set of the claim matches it. -/
theorem c5_counterexample_array_entry_not_trimmed :
    isOnOfficeWiFi (SSIDInput.arr [" Office"]) (some "Office") = false ∧
    isOnExpectedNetworkSpec (SSIDInput.arr [" Office"]) (some "Office") = true := by
  decide

/-- C5 amended: `isOnOfficeWiFi` returns true iff the detected network name
exactly equals one entry of the expected set, where a string input is
comma-split, trimmed and filtered but an array input is used verbatim
(entries are neither split nor trimmed); it returns false — never throwing,
being a total function — when detection is inconclusive or the expected
input is absent or malformed. -/
theorem c5_exact_membership (expected : SSIDInput) (det : Option String) :
    (isOnOfficeWiFi expected det = true ↔
      ∃ ssid, det = some ssid ∧
        ((∃ s, expected = SSIDInput.str s ∧ ssid ∈ splitTrimFilter s) ∨
         (∃ l, expected = SSIDInput.arr l ∧ ssid ∈ l))) ∧
    isOnOfficeWiFi expected none = false ∧
    isOnOfficeWiFi SSIDInput.absent det = false ∧
    isOnOfficeWiFi SSIDInput.other det = false := by
  refine ⟨?_, ?_, rfl, rfl⟩
  · cases expected with
    | absent => simp [isOnOfficeWiFi]
    | other => simp [isOnOfficeWiFi]
    | arr l =>
      cases det with
      | none => simp [isOnOfficeWiFi]
      | some ssid =>
        by_cases hl : l.length = 0
        · rw [List.length_eq_zero] at hl
          subst hl
          simp [isOnOfficeWiFi]
        · simp [isOnOfficeWiFi, hl]
    | str s =>
      cases det with
      | none => simp [isOnOfficeWiFi]
      | some ssid =>
        by_cases he : s.isEmpty = true
        · have hempty : splitTrimFilter s = [] := splitTrimFilter_of_isEmpty s he
          simp [isOnOfficeWiFi, he, hempty]
        · by_cases hlen : (splitTrimFilter s).length = 0
          · have hempty : splitTrimFilter s = [] := List.length_eq_zero.mp hlen
            simp [isOnOfficeWiFi, he, hlen, hempty]
          · simp [isOnOfficeWiFi, he, hlen]
  · cases expected with
    | absent => rfl
    | other => rfl
    | arr l => simp [isOnOfficeWiFi]
    | str s => simp [isOnOfficeWiFi]

/-- C9 counterexample: a control with empty text that carries the
accessible label "Punch out".  The claimed rule — substring match on
"in"/"out" in the text or the accessible label — classifies it as
check-out, but the code classifies it as check-in because its bare "out"
fallback reads only the button text. -/
theorem c9_counterexample_label_out_ignored :
    classifyAction "" (some "Punch out") = some ActionKind.checkin ∧
    classifyActionSpec "" "Punch out" = ActionKind.checkout := by
  decide

/-- C9 amended: for a matched control whose aria-label attribute resolves
to a string, the classification applies lowercase substring checks in this
order: "check-in" in the text or the label gives check-in; otherwise
"check-out" in the text or the label gives check-out; otherwise the action
is check-out exactly when the button text alone contains "out" (the label
is not consulted by this fallback), defaulting to check-in in every
remaining case.  For a control whose aria-label attribute is absent, the
control is classified check-in when its text contains "check-in";
otherwise the classification throws a TypeError instead of producing a
class, and the control is skipped rather than classified. -/
theorem c9_classification_rule (buttonText lbl : String) :
    (classifyAction buttonText (some lbl) = some ActionKind.checkout ↔
      (strContains (jsToLower buttonText) "check-in" = false ∧
       strContains (jsToLower lbl) "check-in" = false) ∧
      (strContains (jsToLower buttonText) "check-out" = true ∨
       strContains (jsToLower lbl) "check-out" = true ∨
       strContains (jsToLower buttonText) "out" = true)) ∧
    (classifyAction buttonText (some lbl) = some ActionKind.checkin ↔
      ¬ ((strContains (jsToLower buttonText) "check-in" = false ∧
          strContains (jsToLower lbl) "check-in" = false) ∧
         (strContains (jsToLower buttonText) "check-out" = true ∨
          strContains (jsToLower lbl) "check-out" = true ∨
          strContains (jsToLower buttonText) "out" = true))) ∧
    (classifyAction buttonText none =
      (if strContains (jsToLower buttonText) "check-in" then some ActionKind.checkin
       else none)) := by
  unfold classifyAction
  cases h1 : strContains (jsToLower buttonText) "check-in" <;>
  cases h2 : strContains (jsToLower lbl) "check-in" <;>
  cases h3 : strContains (jsToLower buttonText) "check-out" <;>
  cases h4 : strContains (jsToLower lbl) "check-out" <;>
  cases h5 : strContains (jsToLower buttonText) "out" <;>
  simp [h1, h2, h3, h4, h5]

/-- C4: a configuration whose account identifier is absent makes the run
exit with code 1 before any network action: the trace is empty, so in
particular no browser is launched and no page is navigated. -/
theorem c4_missing_email_exits_before_network (c : Config) (w : World)
    (h : c.email = none) :
    performZohoCheckin c w = ([], 1) ∧
    (∀ p, Event.browserLaunch p ∉ (performZohoCheckin c w).1) ∧
    (∀ u, Event.navigate u ∉ (performZohoCheckin c w).1) := by
  have hrun : performZohoCheckin c w = ([], 1) := by
    unfold performZohoCheckin tryBody
    simp [h, falsyStr]
  refine ⟨hrun, ?_, ?_⟩ <;> intro x <;> rw [hrun] <;> simp

def c4Config : Config :=
  ⟨none, some "secret", false, true, false, true, none, none, none, none⟩

def c4World : World :=
  ⟨false, "https://accounts.zoho.com/signin", "", "", [], [], "20240101"⟩

/-- Witness for C4 at a concrete configuration without an email. -/
theorem c4_missing_email_exits_before_network_witness :
    performZohoCheckin c4Config c4World = ([], 1) ∧
    (∀ p, Event.browserLaunch p ∉ (performZohoCheckin c4Config c4World).1) ∧
    (∀ u, Event.navigate u ∉ (performZohoCheckin c4Config c4World).1) :=
  c4_missing_email_exits_before_network c4Config c4World rfl

def c6Config : Config :=
  ⟨some "user@example.com", none, false, false, false, true, none, none, none, none⟩

def c6World : World :=
  ⟨false, "https://accounts.zoho.com/signin?servicename=zohopeople", "", "", [], [], "20240101"⟩

/-- C6, evaluated at the failing input: OAuth mode, a non-headless run
(HEADLESS is false; HEADED is unset, as in every invocation in this
repository, including the monitor that spawns the flow with HEADLESS set to
"false"), and a login page in which no OAuth selector yields a visible
control.  The code takes the diagnostic screenshot but then throws and the
run exits 1 — it never waits the manual grace window — because
handleGoogleLogin branches on the never-set HEADED variable instead of the
headless flag used everywhere else. -/
theorem c6_nonheadless_oauth_failure_still_throws :
    c6Config.headlessFlag = false ∧
    useGoogleLogin c6Config = true ∧
    googleScan c6World.loginPage
      (selectorList c6Config.googleSelectorsEnv googleButtonSelectorDefaults) = none ∧
    performZohoCheckin c6Config c6World =
      ([Event.browserLaunch true, Event.navigate (zohoUrl c6Config),
        Event.screenshot "logs/google-button-not-found.png"], 1) ∧
    Event.waitManual ∉ (performZohoCheckin c6Config c6World).1 := by
  decide

/-- C7: when the landing address contains no login marker the Login
Resolver is skipped entirely — the trace holds no login event of any kind —
and the run proceeds directly to the Action Resolver phase followed by the
final screenshot. -/
theorem c7_already_authenticated_skips_login (c : Config) (w : World)
    (hemail : falsyStr c.email = false)
    (hurl : isLoginUrl w.landingUrl = false) :
    performZohoCheckin c w =
      (Event.browserLaunch c.usePersistentContext :: Event.navigate (zohoUrl c) ::
        ((actionPhase c w).1 ++ [Event.screenshot (finalShotPath w)]), 0) ∧
    ∀ ev ∈ (performZohoCheckin c w).1, isLoginEvent ev = false := by
  have hskip := loginPhase_skip c w hurl
  have hexp := tryBody_ok_expand c w hemail (by rw [hskip])
  rw [hskip] at hexp
  simp only [List.nil_append] at hexp
  have heq : performZohoCheckin c w =
      (Event.browserLaunch c.usePersistentContext :: Event.navigate (zohoUrl c) ::
        ((actionPhase c w).1 ++ [Event.screenshot (finalShotPath w)]), 0) := by
    unfold performZohoCheckin
    rw [hexp]
  refine ⟨heq, ?_⟩
  intro ev hev
  rw [heq] at hev
  simp at hev
  rcases hev with rfl | rfl | hev | rfl
  · rfl
  · rfl
  · exact actionPhase_no_login_events c w ev hev
  · rfl

def c7Config : Config :=
  ⟨some "user@example.com", some "secret", false, true, false, true, none, none, none, none⟩

def c7World : World :=
  ⟨true, "https://people.zoho.com/iscalesolutions/zp#home/myspace/overview-actionlist",
   "", "https://people.zoho.com/iscalesolutions/zp#home/myspace/overview-actionlist",
   [], [("#ZPAtt_check_in_out", Lookup.present true ⟨"Check-in", some "Check-in"⟩)], "20240101"⟩

/-- Witness for C7 at a concrete already-authenticated run. -/
theorem c7_already_authenticated_skips_login_witness :
    performZohoCheckin c7Config c7World =
      (Event.browserLaunch c7Config.usePersistentContext ::
        Event.navigate (zohoUrl c7Config) ::
        ((actionPhase c7Config c7World).1 ++ [Event.screenshot (finalShotPath c7World)]), 0) ∧
    ∀ ev ∈ (performZohoCheckin c7Config c7World).1, isLoginEvent ev = false :=
  c7_already_authenticated_skips_login c7Config c7World (by decide) (by decide)

/-- C8: when no selector of the action list yields a visible match, the run
records the failure with the `checkin-not-found` diagnostic screenshot,
raises no error, still takes the final screenshot, and exits 0. -/
theorem c8_action_not_found_still_exits_zero (c : Config) (w : World)
    (hemail : falsyStr c.email = false)
    (hlogin : (loginPhase c w).2 = Outcome.ok)
    (hscan : actionScan w.actionPage
      (selectorList c.checkinSelectorsEnv actionSelectorDefaults) = none) :
    (performZohoCheckin c w).2 = 0 ∧
    Event.screenshot "logs/checkin-not-found.png" ∈ (performZohoCheckin c w).1 ∧
    Event.screenshot (finalShotPath w) ∈ (performZohoCheckin c w).1 := by
  have hexp := tryBody_ok_expand c w hemail hlogin
  have hmem : Event.screenshot "logs/checkin-not-found.png" ∈ (actionPhase c w).1 := by
    unfold actionPhase
    rw [hscan]
    simp
  have heq : performZohoCheckin c w =
      (Event.browserLaunch c.usePersistentContext :: Event.navigate (zohoUrl c) ::
        ((loginPhase c w).1 ++ (actionPhase c w).1 ++ [Event.screenshot (finalShotPath w)]),
       0) := by
    unfold performZohoCheckin
    rw [hexp]
  rw [heq]
  refine ⟨rfl, ?_, ?_⟩ <;> simp [hmem]

def c8Config : Config :=
  ⟨some "user@example.com", some "secret", false, true, false, true, none, none, none, none⟩

def c8World : World :=
  ⟨true, "https://people.zoho.com/iscalesolutions/zp#home/myspace/overview-actionlist",
   "", "https://people.zoho.com/iscalesolutions/zp#home/myspace/overview-actionlist",
   [], [], "20240101"⟩

/-- Witness for C8 at a concrete run whose action page shows no control. -/
theorem c8_action_not_found_still_exits_zero_witness :
    (performZohoCheckin c8Config c8World).2 = 0 ∧
    Event.screenshot "logs/checkin-not-found.png" ∈ (performZohoCheckin c8Config c8World).1 ∧
    Event.screenshot (finalShotPath c8World) ∈ (performZohoCheckin c8Config c8World).1 :=
  c8_action_not_found_still_exits_zero c8Config c8World (by decide) (by decide) (by decide)

end Checkin
